import Mathlib

/-!
Verification of the SSD detection post-processing orchestrator
(`detectionInference` in `plugin/common/kernels/detectionForward.cu`).

The orchestrator is a straight-line sequence of stage launches; each stage
returns a `pluginStatus_t` which is checked by `ASSERT_FAILURE` before the
next stage runs.  We embed the orchestrator shallowly:

* the exact argument list of every stage launch is recorded in a call
  record (`DecodeCall`, `PermuteCall`, ...), with buffers named by the
  workspace region (`Buf`) they point at and numeric arguments copied from
  the source expression that produces them;
* `plannedCalls` is the list of launches the source performs, in source
  order, including the `shareLocation` branch around the box permutation;
* `detectionInference` runs that list against an arbitrary stage-status
  oracle, stopping at the first non-success exactly as the chain of
  `ASSERT_FAILURE` checks does;
* the workspace layout (sizes and `nextWorkspacePtr` offsets) is embedded
  as pure arithmetic on byte offsets from the workspace base;
* a second, value-level model (`exec` over `MemState`) threads the data
  flow between stages, with the stage kernels as abstract functions.
-/

/-- `nvinfer1::DataType` (only the tensor element types this kernel can see). -/
inductive DataType
  | kFLOAT
  | kHALF
  | kINT8
  | kINT32
deriving DecidableEq, Repr

/-- `nvinfer1::plugin::CodeTypeSSD`: box encoding selector. -/
inductive CodeTypeSSD
  | CORNER
  | CENTER_SIZE
  | CORNER_SIZE
  | TF_CENTER
deriving DecidableEq, Repr

/-- `pluginStatus_t` return codes. -/
inductive pluginStatus_t
  | STATUS_SUCCESS
  | STATUS_FAILURE
  | STATUS_BAD_PARAM
  | STATUS_NOT_SUPPORTED
  | STATUS_NOT_INITIALIZED
deriving DecidableEq, Repr

open DataType CodeTypeSSD pluginStatus_t

/-- Buffers the orchestrator wires into stage launches: the caller-supplied
input and output pointers, and the seven workspace sub-buffers carved out of
`workspace` by `nextWorkspacePtr`. -/
inductive Buf
  | locData
  | priorData
  | confData
  | bboxDataRaw
  | bboxPermute
  | scores
  | indices
  | postNMSScores
  | postNMSIndices
  | sortingWorkspace
  | keepCount
  | topDetections
deriving DecidableEq, Repr

/-- Arguments of the `decodeBBoxes` launch (stream omitted), in source order. -/
structure DecodeCall where
  locCount : Nat
  codeType : CodeTypeSSD
  varianceEncodedInTarget : Bool
  numPredsPerClass : Nat
  shareLocation : Bool
  numLocClasses : Nat
  backgroundLabelId : Int
  clipBBox : Bool
  dtBBox : DataType
  locData : Buf
  priorData : Buf
  bboxData : Buf
  isBatchAgnostic : Bool
deriving DecidableEq, Repr

/-- Arguments of a `permuteData` launch, in source order. -/
structure PermuteCall where
  count : Nat
  numClasses : Nat
  numPredsPerClass : Nat
  elemSize : Nat
  dt : DataType
  confSigmoid : Bool
  src : Buf
  dst : Buf
deriving DecidableEq, Repr

/-- Arguments of the `sortScoresPerClass` launch, in source order. -/
structure SortClassCall where
  N : Nat
  numClasses : Nat
  numPredsPerClass : Nat
  backgroundLabelId : Int
  confidenceThreshold : Rat
  dtScore : DataType
  scores : Buf
  indices : Buf
  sortingWorkspace : Buf
  scoreBits : Int
  scoreShift : Rat
deriving DecidableEq, Repr

/-- Arguments of the `allClassNMS` launch, in source order. -/
structure NMSCall where
  N : Nat
  numClasses : Nat
  numPredsPerClass : Nat
  topK : Nat
  nmsThreshold : Rat
  shareLocation : Bool
  isNormalized : Bool
  dtScore : DataType
  dtBBox : DataType
  bboxData : Buf
  beforeNMSScores : Buf
  beforeNMSIndices : Buf
  postNMSScores : Buf
  postNMSIndices : Buf
  flipXY : Bool
  scoreShift : Rat
  caffeSemantics : Bool
deriving DecidableEq, Repr

/-- Arguments of the `sortScoresPerImage` launch, in source order. -/
structure SortImageCall where
  N : Nat
  itemsPerImage : Nat
  dtScore : DataType
  inScores : Buf
  inIndices : Buf
  outScores : Buf
  outIndices : Buf
  sortingWorkspace : Buf
  scoreBits : Int
deriving DecidableEq, Repr

/-- Arguments of the `gatherTopDetections` launch, in source order. -/
structure GatherCall where
  shareLocation : Bool
  N : Nat
  numPredsPerClass : Nat
  numClasses : Nat
  topK : Nat
  keepTopK : Nat
  dtBBox : DataType
  dtScore : DataType
  indices : Buf
  scores : Buf
  bboxData : Buf
  keepCount : Buf
  topDetections : Buf
  scoreShift : Rat
deriving DecidableEq, Repr

/-- One stage launch performed by the orchestrator. -/
inductive StageCall
  | decode (c : DecodeCall)
  | permute (c : PermuteCall)
  | sortPerClass (c : SortClassCall)
  | nms (c : NMSCall)
  | sortPerImage (c : SortImageCall)
  | gather (c : GatherCall)
deriving DecidableEq, Repr

/-- The scalar parameters of `detectionInference` (stream and pointers
omitted; pointers are represented by `Buf` tags).  `float` parameters are
modelled as exact rationals: the orchestrator itself only ever computes the
exact values `0.0` and `1.0` and otherwise passes them through. -/
structure DetectionParams where
  N : Nat
  C1 : Nat
  C2 : Nat
  shareLocation : Bool
  varianceEncodedInTarget : Bool
  backgroundLabelId : Int
  numPredsPerClass : Nat
  numClasses : Nat
  topK : Nat
  keepTopK : Nat
  confidenceThreshold : Rat
  nmsThreshold : Rat
  codeType : CodeTypeSSD
  dtBBox : DataType
  dtScore : DataType
  isNormalized : Bool
  confSigmoid : Bool
  scoreBits : Int
  isBatchAgnostic : Bool
deriving DecidableEq, Repr

/-- `const int locCount = N * C1;` -/
def locCount (p : DetectionParams) : Nat := p.N * p.C1

/-- `const bool clipBBox = false;` — clipping is fixed off in this pipeline. -/
def clipBBox : Bool := false

/-- `const int numLocClasses = shareLocation ? 1 : numClasses;` -/
def numLocClasses (p : DetectionParams) : Nat :=
  if p.shareLocation then 1 else p.numClasses

/-- `const int numScores = N * C2;` -/
def numScores (p : DetectionParams) : Nat := p.N * p.C2

/-- `float scoreShift = 0.f; if(DT_SCORE == DataType::kHALF && scoreBits > 0 && scoreBits <= 10) scoreShift = 1.f;` -/
def scoreShift (p : DetectionParams) : Rat :=
  if p.dtScore = kHALF ∧ 0 < p.scoreBits ∧ p.scoreBits ≤ 10 then 1 else 0

/-- The buffer downstream stages read boxes from:
`bboxData = shareLocation ? bboxDataRaw : bboxPermute` (source lines 98-119). -/
def bboxDataBuf (p : DetectionParams) : Buf :=
  if p.shareLocation then Buf.bboxDataRaw else Buf.bboxPermute

/-- The `decodeBBoxes` launch of lines 67-80. -/
def decodeCallOf (p : DetectionParams) : DecodeCall :=
  { locCount := locCount p
    codeType := p.codeType
    varianceEncodedInTarget := p.varianceEncodedInTarget
    numPredsPerClass := p.numPredsPerClass
    shareLocation := p.shareLocation
    numLocClasses := numLocClasses p
    backgroundLabelId := p.backgroundLabelId
    clipBBox := clipBBox
    dtBBox := p.dtBBox
    locData := Buf.locData
    priorData := Buf.priorData
    bboxData := Buf.bboxDataRaw
    isBatchAgnostic := p.isBatchAgnostic }

/-- The box `permuteData` launch of lines 100-108 (only made when
`!shareLocation`). -/
def boxPermuteCallOf (p : DetectionParams) : PermuteCall :=
  { count := locCount p
    numClasses := numLocClasses p
    numPredsPerClass := p.numPredsPerClass
    elemSize := 4
    dt := p.dtBBox
    confSigmoid := false
    src := Buf.bboxDataRaw
    dst := Buf.bboxPermute }

/-- The score `permuteData` launch of lines 133-141. -/
def scorePermuteCallOf (p : DetectionParams) : PermuteCall :=
  { count := numScores p
    numClasses := p.numClasses
    numPredsPerClass := p.numPredsPerClass
    elemSize := 1
    dt := p.dtScore
    confSigmoid := p.confSigmoid
    src := Buf.confData
    dst := Buf.scores }

/-- The `sortScoresPerClass` launch of lines 159-170. -/
def sortClassCallOf (p : DetectionParams) : SortClassCall :=
  { N := p.N
    numClasses := p.numClasses
    numPredsPerClass := p.numPredsPerClass
    backgroundLabelId := p.backgroundLabelId
    confidenceThreshold := p.confidenceThreshold
    dtScore := p.dtScore
    scores := Buf.scores
    indices := Buf.indices
    sortingWorkspace := Buf.sortingWorkspace
    scoreBits := p.scoreBits
    scoreShift := scoreShift p }

/-- The `allClassNMS` launch of lines 174-175. -/
def nmsCallOf (p : DetectionParams) : NMSCall :=
  { N := p.N
    numClasses := p.numClasses
    numPredsPerClass := p.numPredsPerClass
    topK := p.topK
    nmsThreshold := p.nmsThreshold
    shareLocation := p.shareLocation
    isNormalized := p.isNormalized
    dtScore := p.dtScore
    dtBBox := p.dtBBox
    bboxData := bboxDataBuf p
    beforeNMSScores := Buf.scores
    beforeNMSIndices := Buf.indices
    postNMSScores := Buf.postNMSScores
    postNMSIndices := Buf.postNMSIndices
    flipXY := false
    scoreShift := scoreShift p
    caffeSemantics := true }

/-- The `sortScoresPerImage` launch of lines 179-188. -/
def sortImageCallOf (p : DetectionParams) : SortImageCall :=
  { N := p.N
    itemsPerImage := p.numClasses * p.topK
    dtScore := p.dtScore
    inScores := Buf.postNMSScores
    inIndices := Buf.postNMSIndices
    outScores := Buf.scores
    outIndices := Buf.indices
    sortingWorkspace := Buf.sortingWorkspace
    scoreBits := p.scoreBits }

/-- The `gatherTopDetections` launch of lines 192-206. -/
def gatherCallOf (p : DetectionParams) : GatherCall :=
  { shareLocation := p.shareLocation
    N := p.N
    numPredsPerClass := p.numPredsPerClass
    numClasses := p.numClasses
    topK := p.topK
    keepTopK := p.keepTopK
    dtBBox := p.dtBBox
    dtScore := p.dtScore
    indices := Buf.indices
    scores := Buf.scores
    bboxData := bboxDataBuf p
    keepCount := Buf.keepCount
    topDetections := Buf.topDetections
    scoreShift := scoreShift p }

/-- The sequence of stage launches `detectionInference` performs, in source
order.  The only branch in the source body is the `if (!shareLocation)`
around the box permutation (lines 98-119); every other launch is
unconditional. -/
def plannedCalls (p : DetectionParams) : List StageCall :=
  [StageCall.decode (decodeCallOf p)]
    ++ (if p.shareLocation then [] else [StageCall.permute (boxPermuteCallOf p)])
    ++ [StageCall.permute (scorePermuteCallOf p),
        StageCall.sortPerClass (sortClassCallOf p),
        StageCall.nms (nmsCallOf p),
        StageCall.sortPerImage (sortImageCallOf p),
        StageCall.gather (gatherCallOf p)]

/-- Modelled from the spec: the `ASSERT_FAILURE` macro used after every stage
launch is declared in a plugin common header that is not under `src/`; per
the spec (section 7) the orchestrator "checks each and halts immediately on
first non-success", reporting "a single terminal status for the call".  We
model it by running the planned launches in order against a status oracle
`σ` and returning `STATUS_FAILURE` at the first launch whose status is not
`STATUS_SUCCESS`, together with the list of launches actually made. -/
def runStages (σ : StageCall → pluginStatus_t) :
    List StageCall → pluginStatus_t × List StageCall
  | [] => (STATUS_SUCCESS, [])
  | c :: rest =>
    if σ c = STATUS_SUCCESS then
      let r := runStages σ rest
      (r.1, c :: r.2)
    else
      (STATUS_FAILURE, [c])

/-- The orchestrator `detectionInference` (lines 24-210), at the level of
stage launches: it performs the launches of `plannedCalls` in order, and the
`ASSERT_FAILURE` after each launch aborts the rest of the body on the first
non-success status. -/
def detectionInference (σ : StageCall → pluginStatus_t) (p : DetectionParams) :
    pluginStatus_t × List StageCall :=
  runStages σ (plannedCalls p)

/-- Byte width of one element of each tensor data type
(`sizeof(float)`, `sizeof(__half)`, ...). -/
def sizeofDataType : DataType → Nat
  | kFLOAT => 4
  | kHALF => 2
  | kINT8 => 1
  | kINT32 => 4

/-- Modelled from the spec: `detectionForwardBBoxDataSize` is declared in a
kernel header not under `src/`.  The decoded-box buffer holds the `N * C1`
location values in the declared box precision (spec sections 3 and 4.1), so
its byte size is `N * C1 * sizeof(element)`. -/
def detectionForwardBBoxDataSize (N C1 : Nat) (dt : DataType) : Nat :=
  N * C1 * sizeofDataType dt

/-- Modelled from the spec: `detectionForwardBBoxPermuteSize` is declared in
a kernel header not under `src/`.  The permuted-box buffer mirrors the
decoded-box buffer, and is not needed at all when boxes are shared across
classes (spec section 4.2: the permutation "is skipped entirely and the
decoded-box buffer is reused in place"). -/
def detectionForwardBBoxPermuteSize (shareLocation : Bool) (N C1 : Nat) (dt : DataType) : Nat :=
  if shareLocation then 0 else N * C1 * sizeofDataType dt

/-- Modelled from the spec: `detectionForwardPreNMSSize` is declared in a
kernel header not under `src/`.  It takes no data-type argument (visible in
the call sites at lines 125 and 144) and sizes one 32-bit value per score,
`N * C2 * sizeof(float)`; the orchestrator itself halves it for 16-bit
scores (line 126). -/
def detectionForwardPreNMSSize (N C2 : Nat) : Nat :=
  N * C2 * 4

/-- Modelled from the spec: `detectionForwardPostNMSSize` is declared in a
kernel header not under `src/`.  One 32-bit value per (image, class, topK)
slot: `N * numClasses * topK * sizeof(float)`; the orchestrator halves it
for 16-bit scores (line 148). -/
def detectionForwardPostNMSSize (N numClasses topK : Nat) : Nat :=
  N * numClasses * topK * 4

/-- `size_t bboxDataSize = detectionForwardBBoxDataSize(N, C1, DT_BBOX);` -/
def bboxDataSize (p : DetectionParams) : Nat :=
  detectionForwardBBoxDataSize p.N p.C1 p.dtBBox

/-- `size_t bboxPermuteSize = detectionForwardBBoxPermuteSize(shareLocation, N, C1, DT_BBOX);` -/
def bboxPermuteSize (p : DetectionParams) : Nat :=
  detectionForwardBBoxPermuteSize p.shareLocation p.N p.C1 p.dtBBox

/-- `size_t scoresSize = detectionForwardPreNMSSize(N, C2); if (DT_SCORE == DataType::kHALF) scoresSize /= 2;` -/
def scoresSize (p : DetectionParams) : Nat :=
  let s := detectionForwardPreNMSSize p.N p.C2
  if p.dtScore = kHALF then s / 2 else s

/-- `size_t indicesSize = detectionForwardPreNMSSize(N, C2);` (never halved). -/
def indicesSize (p : DetectionParams) : Nat :=
  detectionForwardPreNMSSize p.N p.C2

/-- `size_t postNMSScoresSize = detectionForwardPostNMSSize(N, numClasses, topK); if (DT_SCORE == DataType::kHALF) postNMSScoresSize /= 2;` -/
def postNMSScoresSize (p : DetectionParams) : Nat :=
  let s := detectionForwardPostNMSSize p.N p.numClasses p.topK
  if p.dtScore = kHALF then s / 2 else s

/-- `size_t postNMSIndicesSize = detectionForwardPostNMSSize(N, numClasses, topK);` (never halved). -/
def postNMSIndicesSize (p : DetectionParams) : Nat :=
  detectionForwardPostNMSSize p.N p.numClasses p.topK

/-- Modelled from the spec: the workspace alignment constant of the plugin
common library (`CUDA_MEM_ALIGN`), not under `src/`; sub-buffers are
"alignment-respecting" (spec section 3). -/
def CUDA_MEM_ALIGN : Nat := 256

/-- Modelled from the spec: `alignPtr`, not under `src/` — rounds an offset
up to the next multiple of the alignment. -/
def alignPtr (addr align : Nat) : Nat :=
  if addr % align = 0 then addr else addr + (align - addr % align)

/-- Modelled from the spec: `nextWorkspacePtr(ptr, previousWorkspaceSize)`,
not under `src/` — the start of the next sub-buffer is the end of the
previous one, rounded up to the alignment.  We work with byte offsets from
the (aligned) workspace base instead of raw addresses, per the spec's
requirement that the layout be "computed deterministically" from the shape
parameters, "independent of pointer values". -/
def nextWorkspacePtr (prev size : Nat) : Nat :=
  alignPtr (prev + size) CUDA_MEM_ALIGN

/-- A size padded to the alignment: the number of workspace bytes a
sub-buffer of that size reserves. -/
def alignedSize (s : Nat) : Nat :=
  if s % CUDA_MEM_ALIGN = 0 then s else s + (CUDA_MEM_ALIGN - s % CUDA_MEM_ALIGN)

/-- Modelled from the spec: `calculateTotalWorkspaceSize`, not under `src/`
— the total is the sum of the sub-buffer sizes, each padded to the
alignment. -/
def calculateTotalWorkspaceSize (ws : List Nat) : Nat :=
  ws.foldl (fun total w => total + alignedSize w) 0

/-- `void* bboxDataRaw = workspace;` — offset 0. -/
def bboxDataOffset (_p : DetectionParams) : Nat := 0

/-- `void* bboxPermute = nextWorkspacePtr((int8_t*) bboxDataRaw, bboxDataSize);` -/
def bboxPermuteOffset (p : DetectionParams) : Nat :=
  nextWorkspacePtr (bboxDataOffset p) (bboxDataSize p)

/-- `void* scores = nextWorkspacePtr((int8_t*) bboxPermute, bboxPermuteSize);` -/
def scoresOffset (p : DetectionParams) : Nat :=
  nextWorkspacePtr (bboxPermuteOffset p) (bboxPermuteSize p)

/-- `void* indices = nextWorkspacePtr((int8_t*) scores, scoresSize);` -/
def indicesOffset (p : DetectionParams) : Nat :=
  nextWorkspacePtr (scoresOffset p) (scoresSize p)

/-- `void* postNMSScores = nextWorkspacePtr((int8_t*) indices, indicesSize);` -/
def postNMSScoresOffset (p : DetectionParams) : Nat :=
  nextWorkspacePtr (indicesOffset p) (indicesSize p)

/-- `void* postNMSIndices = nextWorkspacePtr((int8_t*) postNMSScores, postNMSScoresSize);` -/
def postNMSIndicesOffset (p : DetectionParams) : Nat :=
  nextWorkspacePtr (postNMSScoresOffset p) (postNMSScoresSize p)

/-- `void* sortingWorkspace = nextWorkspacePtr((int8_t*) postNMSIndices, postNMSIndicesSize);` -/
def sortingWorkspaceOffset (p : DetectionParams) : Nat :=
  nextWorkspacePtr (postNMSIndicesOffset p) (postNMSIndicesSize p)

/-- The seven workspace sub-buffers used during execution, in layout order,
as (byte offset, byte size) pairs.  `sortWS` is the byte size of the sorting
scratch buffer (its sizing helper is not under `src/`; the layout holds for
every value of it). -/
def workspaceRegions (p : DetectionParams) (sortWS : Nat) : List (Nat × Nat) :=
  [(bboxDataOffset p, bboxDataSize p),
   (bboxPermuteOffset p, bboxPermuteSize p),
   (scoresOffset p, scoresSize p),
   (indicesOffset p, indicesSize p),
   (postNMSScoresOffset p, postNMSScoresSize p),
   (postNMSIndicesOffset p, postNMSIndicesSize p),
   (sortingWorkspaceOffset p, sortWS)]

/-- Modelled from the spec: the separately queryable workspace-sizing
function (`detectionInferenceWorkspaceSize`) is not under `src/`; the spec
(sections 4.3 and 6) requires that "the same formula must be used for both
query and execution", so the query totals exactly the seven sub-buffer sizes
the execution lays out, each padded to the alignment. -/
def detectionInferenceWorkspaceSize (p : DetectionParams) (sortWS : Nat) : Nat :=
  calculateTotalWorkspaceSize
    [bboxDataSize p, bboxPermuteSize p, scoresSize p, indicesSize p,
     postNMSScoresSize p, postNMSIndicesSize p, sortWS]

/-- The shape parameters the workspace layout may depend on. -/
def shapeParams (p : DetectionParams) :
    Nat × Nat × Nat × Bool × Nat × Nat × DataType × DataType :=
  (p.N, p.C1, p.C2, p.shareLocation, p.numClasses, p.topK, p.dtBBox, p.dtScore)

/-- The pipeline stages named by the spec's state machine
(`Decode → Permute-boxes → Permute-scores → Sort-per-class → NMS →
Sort-per-image → Gather`).  The two `permuteData` launches are told apart by
their destination buffer. -/
inductive StageTag
  | decode
  | permuteBoxes
  | permuteScores
  | sortPerClass
  | nms
  | sortPerImage
  | gather
deriving DecidableEq, Repr

/-- Which pipeline stage a launch belongs to. -/
def stageTag : StageCall → StageTag
  | StageCall.decode _ => StageTag.decode
  | StageCall.permute c =>
    if c.dst = Buf.bboxPermute then StageTag.permuteBoxes else StageTag.permuteScores
  | StageCall.sortPerClass _ => StageTag.sortPerClass
  | StageCall.nms _ => StageTag.nms
  | StageCall.sortPerImage _ => StageTag.sortPerImage
  | StageCall.gather _ => StageTag.gather

/-- The `scoreShift` argument a launch carries, for the three stages that
take one (`sortScoresPerClass`, `allClassNMS`, `gatherTopDetections`). -/
def shiftArg : StageCall → Option Rat
  | StageCall.sortPerClass c => some c.scoreShift
  | StageCall.nms c => some c.scoreShift
  | StageCall.gather c => some c.scoreShift
  | _ => none

/-- Modelled from the spec: the buffers a launch writes.  The stage kernels
are not under `src/`; per the spec (section 2) "each stage consumes the
prior stage's output buffer and writes to the next workspace region", so a
launch writes exactly its output arguments (for the two sorting stages this
includes the sorted score/index arrays and the sorting scratch). -/
def writesOf : StageCall → List Buf
  | StageCall.decode c => [c.bboxData]
  | StageCall.permute c => [c.dst]
  | StageCall.sortPerClass c => [c.scores, c.indices, c.sortingWorkspace]
  | StageCall.nms c => [c.postNMSScores, c.postNMSIndices]
  | StageCall.sortPerImage c => [c.outScores, c.outIndices, c.sortingWorkspace]
  | StageCall.gather c => [c.keepCount, c.topDetections]

/-- The memory the orchestrator touches, one abstract value of type `V` per
buffer: the three caller-supplied input tensors, the seven workspace
sub-buffers (holding arbitrary garbage at entry), and the two output
buffers. -/
structure MemState (V : Type) where
  locData : V
  priorData : V
  confData : V
  bboxDataRaw : V
  bboxPermute : V
  scores : V
  indices : V
  postNMSScores : V
  postNMSIndices : V
  sortingWorkspace : V
  keepCount : V
  topDetections : V

/-- Modelled from the spec: the six stage kernels are not under `src/`; the
spec (sections 4.1-4.7 and 5) specifies each as a deterministic
transformation of its input buffers ("decoding is a pure function of its
three inputs", stable sorts with deterministic tie-breaks, greedy NMS with
"deterministic, reproducible results").  Each field maps the launch
arguments and the values of the buffers the kernel reads to the values of
the buffers it writes.  The sorting scratch is write-before-read scratch
memory, so it is not an input of the sorting stages. -/
structure StageSem (V : Type) where
  decodeF : DecodeCall → V → V → V
  permuteF : PermuteCall → V → V
  sortScoresPerClassF : SortClassCall → V → V × V
  allClassNMSF : NMSCall → V → V → V → V × V
  sortScoresPerImageF : SortImageCall → V → V → V × V
  gatherTopDetectionsF : GatherCall → V → V → V → V × V

/-- The data flow of `detectionInference` (lines 67-207) at the level of
buffer values: decode writes the decoded boxes, the box permutation (made
only when `!shareLocation`) writes the permuted boxes and `bboxData` selects
between the two, the score permutation writes the permuted scores, the
per-class sort rewrites scores/indices, NMS writes the post-NMS pair, the
per-image sort writes scores/indices again, and the gather writes the two
outputs. -/
def exec {V : Type} (sem : StageSem V) (p : DetectionParams) (s : MemState V) :
    MemState V :=
  let bboxDataRaw := sem.decodeF (decodeCallOf p) s.locData s.priorData
  let bboxPermute :=
    if p.shareLocation then s.bboxPermute
    else sem.permuteF (boxPermuteCallOf p) bboxDataRaw
  let bboxData := if p.shareLocation then bboxDataRaw else bboxPermute
  let scores1 := sem.permuteF (scorePermuteCallOf p) s.confData
  let sorted := sem.sortScoresPerClassF (sortClassCallOf p) scores1
  let afterNMS := sem.allClassNMSF (nmsCallOf p) bboxData sorted.1 sorted.2
  let perImage := sem.sortScoresPerImageF (sortImageCallOf p) afterNMS.1 afterNMS.2
  let outputs := sem.gatherTopDetectionsF (gatherCallOf p) perImage.2 perImage.1 bboxData
  { locData := s.locData
    priorData := s.priorData
    confData := s.confData
    bboxDataRaw := bboxDataRaw
    bboxPermute := bboxPermute
    scores := perImage.1
    indices := perImage.2
    postNMSScores := afterNMS.1
    postNMSIndices := afterNMS.2
    sortingWorkspace := s.sortingWorkspace
    keepCount := outputs.1
    topDetections := outputs.2 }

/-- One entry of a per-image cross-class ranking: a score, the index it
points back at, and whether the slot holds a real detection (classes with
fewer than `topK` survivors pad their segment with invalid slots). -/
structure ScoredEntry where
  score : Rat
  idx : Nat
  valid : Bool
deriving DecidableEq, Repr

/-- Descending score, ties broken by ascending original index. -/
def scoreOrder (a b : ScoredEntry) : Bool :=
  b.score < a.score ∨ (a.score = b.score ∧ a.idx ≤ b.idx)

/-- Modelled from the spec: the `sortScoresPerImage` kernel is not under
`src/`.  Per spec section 4.6 it merges the per-class post-NMS results of
one image (at most `numClasses * topK` entries) and re-sorts by descending
score with ascending-index tie-break. -/
def sortScoresPerImageModel (entries : List ScoredEntry) : List ScoredEntry :=
  entries.mergeSort (fun a b => scoreOrder a b)

/-- Modelled from the spec: the `gatherTopDetections` kernel is not under
`src/`.  Per spec section 4.7 it takes the top `keepTopK` valid entries of
the image's cross-class ranking and writes the true count of valid
detections to the per-image counter; it returns that count and the kept
entries. -/
def gatherTopDetectionsModel (keepTopK : Nat) (ranked : List ScoredEntry) :
    Nat × List ScoredEntry :=
  let kept := (ranked.filter (fun e => e.valid)).take keepTopK
  (kept.length, kept)

theorem runStages_fst_success_iff (σ : StageCall → pluginStatus_t) (l : List StageCall) :
    (runStages σ l).1 = STATUS_SUCCESS ↔ ∀ c ∈ l, σ c = STATUS_SUCCESS := by
  induction l with
  | nil => simp [runStages]
  | cons c rest ih =>
    by_cases h : σ c = STATUS_SUCCESS
    · simp [runStages, h, ih]
    · simp [runStages, h]

theorem runStages_snd_all_success (σ : StageCall → pluginStatus_t) (l : List StageCall)
    (h : ∀ c ∈ l, σ c = STATUS_SUCCESS) : (runStages σ l).2 = l := by
  induction l with
  | nil => rfl
  | cons c rest ih =>
    have hc : σ c = STATUS_SUCCESS := h c (by simp)
    have hr := ih (fun d hd => h d (by simp [hd]))
    simp [runStages, hc, hr]

theorem runStages_fst_dichotomy (σ : StageCall → pluginStatus_t) (l : List StageCall) :
    (runStages σ l).1 = STATUS_SUCCESS ∨ (runStages σ l).1 = STATUS_FAILURE := by
  induction l with
  | nil => left; rfl
  | cons c rest ih =>
    by_cases h : σ c = STATUS_SUCCESS
    · simpa [runStages, h] using ih
    · right; simp [runStages, h]

theorem runStages_failure_decomp (σ : StageCall → pluginStatus_t) (l : List StageCall)
    (h : (runStages σ l).1 ≠ STATUS_SUCCESS) :
    ∃ pre c suf, l = pre ++ c :: suf ∧ (∀ d ∈ pre, σ d = STATUS_SUCCESS) ∧
      σ c ≠ STATUS_SUCCESS ∧ (runStages σ l).2 = pre ++ [c] := by
  induction l with
  | nil => simp [runStages] at h
  | cons c rest ih =>
    by_cases hc : σ c = STATUS_SUCCESS
    · have hr : (runStages σ rest).1 ≠ STATUS_SUCCESS := by
        simpa [runStages, hc] using h
      obtain ⟨pre, d, suf, hl, hpre, hd, htr⟩ := ih hr
      refine ⟨c :: pre, d, suf, by simp [hl], ?_, hd, by simp [runStages, hc, htr]⟩
      intro e he
      rcases List.mem_cons.1 he with rfl | he'
      · exact hc
      · exact hpre e he'
    · exact ⟨[], c, rest, rfl, by simp, hc, by simp [runStages, hc]⟩

/-- C1: with every stage reporting success, `detectionInference` launches
exactly the fixed linear sequence decode, box permutation (only when
`shareLocation` is false), score permutation, per-class sort, NMS, per-image
sort, gather — in that order, with the static `shareLocation` choice as the
only branch. -/
theorem detectionInference_stage_order (σ : StageCall → pluginStatus_t)
    (p : DetectionParams) (h : ∀ c, σ c = STATUS_SUCCESS) :
    ((detectionInference σ p).2).map stageTag =
      if p.shareLocation then
        [StageTag.decode, StageTag.permuteScores, StageTag.sortPerClass,
         StageTag.nms, StageTag.sortPerImage, StageTag.gather]
      else
        [StageTag.decode, StageTag.permuteBoxes, StageTag.permuteScores,
         StageTag.sortPerClass, StageTag.nms, StageTag.sortPerImage,
         StageTag.gather] := by
  have htr : (detectionInference σ p).2 = plannedCalls p :=
    runStages_snd_all_success σ (plannedCalls p) (fun c _ => h c)
  rw [detectionInference] at htr
  rw [detectionInference, htr]
  cases hs : p.shareLocation <;>
    simp [plannedCalls, hs, stageTag, boxPermuteCallOf, scorePermuteCallOf]

/-- C2: `detectionInference` returns `STATUS_SUCCESS` exactly when every
stage launch it makes reports `STATUS_SUCCESS`; otherwise the
`ASSERT_FAILURE` after the first failing launch returns `STATUS_FAILURE` at
once, every launch before the failing one reported success, and no stage
after the failing one is launched. -/
theorem detectionInference_status_propagation (σ : StageCall → pluginStatus_t)
    (p : DetectionParams) :
    ((detectionInference σ p).1 = STATUS_SUCCESS ↔
        ∀ c ∈ plannedCalls p, σ c = STATUS_SUCCESS)
    ∧ ((detectionInference σ p).1 ≠ STATUS_SUCCESS →
        ∃ pre c suf, plannedCalls p = pre ++ c :: suf ∧
          (∀ d ∈ pre, σ d = STATUS_SUCCESS) ∧ σ c ≠ STATUS_SUCCESS ∧
          (detectionInference σ p).2 = pre ++ [c])
    ∧ ((detectionInference σ p).1 = STATUS_SUCCESS ∨
        (detectionInference σ p).1 = STATUS_FAILURE) := by
  refine ⟨runStages_fst_success_iff σ (plannedCalls p), ?_, runStages_fst_dichotomy σ (plannedCalls p)⟩
  exact runStages_failure_decomp σ (plannedCalls p)

theorem le_alignedSize (s : Nat) : s ≤ alignedSize s := by
  unfold alignedSize
  split <;> omega

theorem dvd_alignedSize (s : Nat) : CUDA_MEM_ALIGN ∣ alignedSize s := by
  unfold alignedSize CUDA_MEM_ALIGN
  split <;> omega

theorem nextWorkspacePtr_eq_of_dvd (m s : Nat) (h : CUDA_MEM_ALIGN ∣ m) :
    nextWorkspacePtr m s = m + alignedSize s := by
  unfold nextWorkspacePtr alignPtr alignedSize CUDA_MEM_ALIGN at *
  obtain ⟨k, rfl⟩ := h
  split <;> split <;> omega

/-- C3: the workspace sub-buffer layout (decoded boxes, permuted boxes,
permuted scores, sort indices, post-NMS scores, post-NMS indices, sorting
scratch, in the `nextWorkspacePtr` sequence of lines 65-154) is a pure
function of the shape parameters `(N, C1, C2, shareLocation, numClasses,
topK, dtBBox, dtScore)` alone, the regions are pairwise non-overlapping
(each ends no later than the next begins), and the end of the laid-out
workspace equals the size the separately queryable sizing function returns
for the same parameters — for every size `sortWS` of the sorting scratch. -/
theorem detectionInference_workspace_layout (p : DetectionParams) (sortWS : Nat) :
    (∀ q : DetectionParams, shapeParams p = shapeParams q →
        workspaceRegions p sortWS = workspaceRegions q sortWS)
    ∧ (workspaceRegions p sortWS).Pairwise (fun a b => a.1 + a.2 ≤ b.1)
    ∧ nextWorkspacePtr (sortingWorkspaceOffset p) sortWS =
        detectionInferenceWorkspaceSize p sortWS := by
  have e0 : bboxDataOffset p = 0 := rfl
  have d0 : CUDA_MEM_ALIGN ∣ bboxDataOffset p := ⟨0, rfl⟩
  have e1 : bboxPermuteOffset p = bboxDataOffset p + alignedSize (bboxDataSize p) :=
    nextWorkspacePtr_eq_of_dvd _ _ d0
  have d1 : CUDA_MEM_ALIGN ∣ bboxPermuteOffset p := by
    rw [e1]; exact Dvd.dvd.add d0 (dvd_alignedSize _)
  have e2 : scoresOffset p = bboxPermuteOffset p + alignedSize (bboxPermuteSize p) :=
    nextWorkspacePtr_eq_of_dvd _ _ d1
  have d2 : CUDA_MEM_ALIGN ∣ scoresOffset p := by
    rw [e2]; exact Dvd.dvd.add d1 (dvd_alignedSize _)
  have e3 : indicesOffset p = scoresOffset p + alignedSize (scoresSize p) :=
    nextWorkspacePtr_eq_of_dvd _ _ d2
  have d3 : CUDA_MEM_ALIGN ∣ indicesOffset p := by
    rw [e3]; exact Dvd.dvd.add d2 (dvd_alignedSize _)
  have e4 : postNMSScoresOffset p = indicesOffset p + alignedSize (indicesSize p) :=
    nextWorkspacePtr_eq_of_dvd _ _ d3
  have d4 : CUDA_MEM_ALIGN ∣ postNMSScoresOffset p := by
    rw [e4]; exact Dvd.dvd.add d3 (dvd_alignedSize _)
  have e5 : postNMSIndicesOffset p = postNMSScoresOffset p + alignedSize (postNMSScoresSize p) :=
    nextWorkspacePtr_eq_of_dvd _ _ d4
  have d5 : CUDA_MEM_ALIGN ∣ postNMSIndicesOffset p := by
    rw [e5]; exact Dvd.dvd.add d4 (dvd_alignedSize _)
  have e6 : sortingWorkspaceOffset p = postNMSIndicesOffset p + alignedSize (postNMSIndicesSize p) :=
    nextWorkspacePtr_eq_of_dvd _ _ d5
  have d6 : CUDA_MEM_ALIGN ∣ sortingWorkspaceOffset p := by
    rw [e6]; exact Dvd.dvd.add d5 (dvd_alignedSize _)
  have g0 := le_alignedSize (bboxDataSize p)
  have g1 := le_alignedSize (bboxPermuteSize p)
  have g2 := le_alignedSize (scoresSize p)
  have g3 := le_alignedSize (indicesSize p)
  have g4 := le_alignedSize (postNMSScoresSize p)
  have g5 := le_alignedSize (postNMSIndicesSize p)
  have g6 := le_alignedSize sortWS
  refine ⟨?_, ?_, ?_⟩
  · intro q h
    simp only [shapeParams, Prod.mk.injEq] at h
    obtain ⟨hN, hC1, hC2, hSL, hNC, hTK, hDB, hDS⟩ := h
    simp [workspaceRegions, bboxDataOffset, bboxPermuteOffset, scoresOffset,
      indicesOffset, postNMSScoresOffset, postNMSIndicesOffset,
      sortingWorkspaceOffset, bboxDataSize, bboxPermuteSize, scoresSize,
      indicesSize, postNMSScoresSize, postNMSIndicesSize,
      detectionForwardBBoxDataSize, detectionForwardBBoxPermuteSize,
      detectionForwardPreNMSSize, detectionForwardPostNMSSize,
      hN, hC1, hC2, hSL, hNC, hTK, hDB, hDS]
  · unfold workspaceRegions
    refine List.Pairwise.cons ?_ (List.Pairwise.cons ?_ (List.Pairwise.cons ?_
      (List.Pairwise.cons ?_ (List.Pairwise.cons ?_ (List.Pairwise.cons ?_
      (List.pairwise_singleton _ _)))))) <;>
    · intro x hx
      fin_cases hx <;> dsimp <;> omega
  · have e7 : nextWorkspacePtr (sortingWorkspaceOffset p) sortWS =
        sortingWorkspaceOffset p + alignedSize sortWS :=
      nextWorkspacePtr_eq_of_dvd _ _ d6
    rw [e7]
    simp only [detectionInferenceWorkspaceSize, calculateTotalWorkspaceSize, List.foldl]
    omega

/-- C4: `scoreShift` is `1.0` exactly when the score type is 16-bit float
and `scoreBits` lies in `[1, 10]`, and `0.0` otherwise; and every launch
that takes a shift argument (`sortScoresPerClass`, `allClassNMS`,
`gatherTopDetections`) receives this same value. -/
theorem scoreShift_policy (p : DetectionParams) :
    (scoreShift p = 1 ↔ p.dtScore = kHALF ∧ 1 ≤ p.scoreBits ∧ p.scoreBits ≤ 10)
    ∧ (¬(p.dtScore = kHALF ∧ 1 ≤ p.scoreBits ∧ p.scoreBits ≤ 10) → scoreShift p = 0)
    ∧ (∀ c ∈ plannedCalls p, shiftArg c = none ∨ shiftArg c = some (scoreShift p)) := by
  have hiff : (p.dtScore = kHALF ∧ 0 < p.scoreBits ∧ p.scoreBits ≤ 10) ↔
      (p.dtScore = kHALF ∧ 1 ≤ p.scoreBits ∧ p.scoreBits ≤ 10) := by
    constructor <;> (rintro ⟨h1, h2, h3⟩; exact ⟨h1, by omega, h3⟩)
  refine ⟨?_, ?_, ?_⟩
  · unfold scoreShift
    split
    · simp only [true_iff]
      exact hiff.1 (by assumption)
    · simp only [iff_false_intro (by assumption ∘ hiff.2)]
      norm_num
  · intro h
    unfold scoreShift
    rw [if_neg (fun hc => h (hiff.1 hc))]
  · intro c hc
    have hmem : c = StageCall.decode (decodeCallOf p)
        ∨ c = StageCall.permute (boxPermuteCallOf p)
        ∨ c = StageCall.permute (scorePermuteCallOf p)
        ∨ c = StageCall.sortPerClass (sortClassCallOf p)
        ∨ c = StageCall.nms (nmsCallOf p)
        ∨ c = StageCall.sortPerImage (sortImageCallOf p)
        ∨ c = StageCall.gather (gatherCallOf p) := by
      unfold plannedCalls at hc
      cases p.shareLocation <;> simp_all <;> tauto
    rcases hmem with rfl | rfl | rfl | rfl | rfl | rfl | rfl
    · left; rfl
    · left; rfl
    · left; rfl
    · right; rfl
    · right; rfl
    · left; rfl
    · right; rfl

/-- C5: the box-permutation launch is made exactly when `shareLocation` is
false; when `shareLocation` is true, both `allClassNMS` and
`gatherTopDetections` are handed the decoded-box buffer itself, no launch
after decoding writes that buffer, and in the value-level model the
decoded-box buffer still holds the decoder output when the call returns. -/
theorem share_location_box_permute (p : DetectionParams) :
    ((∃ c : PermuteCall, StageCall.permute c ∈ plannedCalls p ∧ c.dst = Buf.bboxPermute)
       ↔ p.shareLocation = false)
    ∧ (p.shareLocation = true →
        (nmsCallOf p).bboxData = Buf.bboxDataRaw
        ∧ (gatherCallOf p).bboxData = Buf.bboxDataRaw
        ∧ (∀ c ∈ (plannedCalls p).tail, Buf.bboxDataRaw ∉ writesOf c)
        ∧ ∀ (V : Type) (sem : StageSem V) (s : MemState V),
            (exec sem p s).bboxDataRaw
              = sem.decodeF (decodeCallOf p) s.locData s.priorData) := by
  constructor
  · constructor
    · rintro ⟨c, hc, hdst⟩
      cases hs : p.shareLocation
      · rfl
      · exfalso
        rw [plannedCalls, hs] at hc
        simp only [if_true, List.nil_append, List.cons_append, List.mem_cons,
          List.not_mem_nil, or_false] at hc
        rcases hc with hc | hc | hc | hc | hc | hc <;>
          simp_all [scorePermuteCallOf]
    · intro hs
      refine ⟨boxPermuteCallOf p, ?_, rfl⟩
      rw [plannedCalls, hs]
      simp
  · intro hs
    refine ⟨?_, ?_, ?_, ?_⟩
    · unfold nmsCallOf bboxDataBuf
      rw [hs]
      rfl
    · unfold gatherCallOf bboxDataBuf
      rw [hs]
      rfl
    · intro c hc
      rw [plannedCalls, hs] at hc
      simp only [if_true, List.nil_append, List.cons_append, List.tail_cons,
        List.mem_cons, List.not_mem_nil, or_false] at hc
      rcases hc with rfl | rfl | rfl | rfl | rfl <;>
        simp [writesOf, scorePermuteCallOf, sortClassCallOf, nmsCallOf,
          sortImageCallOf, gatherCallOf]
    · intro V sem s
      simp [exec, hs]

/-- C6: every `decodeBBoxes` launch the orchestrator makes carries
`clipBBox = false` (line 55: `const bool clipBBox = false;`), for every
parameter combination — decoded boxes are retained unclipped. -/
theorem decode_clipBBox_false (p : DetectionParams) (c : DecodeCall)
    (h : StageCall.decode c ∈ plannedCalls p) : c.clipBBox = false := by
  have hc : c = decodeCallOf p := by
    unfold plannedCalls at h
    cases p.shareLocation <;> simp_all
  rw [hc]
  rfl

/-- C7: the per-image valid-detection count produced by gathering the top
`keepTopK` entries of the cross-class ranking (the merge of the
`numClasses * topK` per-class post-NMS slots) is at most `keepTopK` and at
most `numClasses * topK`. -/
theorem keepCount_bounds (numClasses topK keepTopK : Nat) (entries : List ScoredEntry)
    (h : entries.length = numClasses * topK) :
    (gatherTopDetectionsModel keepTopK (sortScoresPerImageModel entries)).1 ≤ keepTopK
    ∧ (gatherTopDetectionsModel keepTopK (sortScoresPerImageModel entries)).1
        ≤ numClasses * topK := by
  unfold gatherTopDetectionsModel
  dsimp only
  have hsort : (sortScoresPerImageModel entries).length = numClasses * topK := by
    unfold sortScoresPerImageModel
    rw [List.length_mergeSort]
    exact h
  have htake := List.length_take keepTopK
    ((sortScoresPerImageModel entries).filter (fun e => e.valid))
  have hfilter := List.length_filter_le (fun e => e.valid)
    (sortScoresPerImageModel entries)
  exact ⟨by omega, by omega⟩

/-- C8: the outputs of the pipeline depend only on the scalar parameters and
the contents of `locData`, `priorData` and `confData`: two invocations whose
initial states agree on those three inputs — whatever garbage the workspace
and output buffers hold at entry — produce identical `keepCount` and
`topDetections`. -/
theorem detectionInference_deterministic {V : Type} (sem : StageSem V)
    (p : DetectionParams) (s₁ s₂ : MemState V)
    (hl : s₁.locData = s₂.locData) (hp : s₁.priorData = s₂.priorData)
    (hc : s₁.confData = s₂.confData) :
    (exec sem p s₁).keepCount = (exec sem p s₂).keepCount
    ∧ (exec sem p s₁).topDetections = (exec sem p s₂).topDetections := by
  cases hs : p.shareLocation <;> simp [exec, hs, hl, hp, hc]

/-- C9: the element count handed to the decode stage is `locCount = N * C1`
(line 53), so whenever the caller-supplied `C1` equals
`numPredsPerClass * numLocClasses * 4` (with `numLocClasses` the
`shareLocation ? 1 : numClasses` of line 62), `locCount` equals
`N * numPredsPerClass * numLocClasses * 4`. -/
theorem locCount_formula (p : DetectionParams)
    (h : p.C1 = p.numPredsPerClass * numLocClasses p * 4) :
    locCount p = p.N * p.C1
    ∧ locCount p = p.N * (p.numPredsPerClass * numLocClasses p * 4)
    ∧ numLocClasses p = (if p.shareLocation then 1 else p.numClasses) := by
  refine ⟨rfl, ?_, rfl⟩
  unfold locCount
  rw [h]

/-- C10: with 16-bit scores both score workspace regions are sized at
exactly half of their 32-bit sizes (lines 126 and 148 halve the helper
sizes), while both index regions keep the full helper size regardless of the
score data type. -/
theorem workspace_half_precision_sizes (p : DetectionParams) (h : p.dtScore = kHALF) :
    2 * scoresSize p = scoresSize {p with dtScore := kFLOAT}
    ∧ 2 * postNMSScoresSize p = postNMSScoresSize {p with dtScore := kFLOAT}
    ∧ indicesSize p = indicesSize {p with dtScore := kFLOAT}
    ∧ postNMSIndicesSize p = postNMSIndicesSize {p with dtScore := kFLOAT} := by
  refine ⟨?_, ?_, rfl, rfl⟩
  · have hf : scoresSize {p with dtScore := kFLOAT} = p.N * p.C2 * 4 := by
      simp [scoresSize, detectionForwardPreNMSSize]
    have hh : scoresSize p = p.N * p.C2 * 4 / 2 := by
      simp [scoresSize, detectionForwardPreNMSSize, h]
    rw [hf, hh]
    generalize p.N * p.C2 = m
    omega
  · have hf : postNMSScoresSize {p with dtScore := kFLOAT}
        = p.N * p.numClasses * p.topK * 4 := by
      simp [postNMSScoresSize, detectionForwardPostNMSSize]
    have hh : postNMSScoresSize p = p.N * p.numClasses * p.topK * 4 / 2 := by
      simp [postNMSScoresSize, detectionForwardPostNMSSize, h]
    rw [hf, hh]
    generalize p.N * p.numClasses * p.topK = m
    omega

/-- A concrete shared-location invocation: one image, 4 priors, 2 classes,
16-bit scores with 8 score bits. -/
def pShared : DetectionParams :=
  { N := 1
    C1 := 16
    C2 := 8
    shareLocation := true
    varianceEncodedInTarget := false
    backgroundLabelId := -1
    numPredsPerClass := 4
    numClasses := 2
    topK := 2
    keepTopK := 1
    confidenceThreshold := 1/2
    nmsThreshold := 1/2
    codeType := CENTER_SIZE
    dtBBox := kFLOAT
    dtScore := kHALF
    isNormalized := true
    confSigmoid := false
    scoreBits := 8
    isBatchAgnostic := false }

/-- Constant stage semantics over `Nat` buffer values. -/
def semConst : StageSem Nat :=
  { decodeF := fun _ _ _ => 0
    permuteF := fun _ _ => 0
    sortScoresPerClassF := fun _ _ => (0, 0)
    allClassNMSF := fun _ _ _ _ => (0, 0)
    sortScoresPerImageF := fun _ _ _ => (0, 0)
    gatherTopDetectionsF := fun _ _ _ _ => (0, 0) }

/-- An entry state with one choice of workspace garbage. -/
def memA : MemState Nat := ⟨1, 2, 3, 10, 11, 12, 13, 14, 15, 16, 17, 18⟩

/-- The same inputs with different workspace garbage. -/
def memB : MemState Nat := ⟨1, 2, 3, 90, 91, 92, 93, 94, 95, 96, 97, 98⟩

/-- A concrete cross-class ranking input: `numClasses * topK = 4` slots, two
of them valid. -/
def entriesW : List ScoredEntry :=
  [⟨9/10, 0, true⟩, ⟨4/5, 1, true⟩, ⟨0, 2, false⟩, ⟨0, 3, false⟩]

theorem detectionInference_stage_order_witness :
    ((detectionInference (fun _ => STATUS_SUCCESS) pShared).2).map stageTag =
      [StageTag.decode, StageTag.permuteScores, StageTag.sortPerClass,
       StageTag.nms, StageTag.sortPerImage, StageTag.gather] := by
  rw [detectionInference_stage_order (fun _ => STATUS_SUCCESS) pShared (fun _ => rfl)]
  decide

theorem detectionInference_status_propagation_witness :
    (detectionInference (fun _ => STATUS_SUCCESS) pShared).1 = STATUS_SUCCESS :=
  (detectionInference_status_propagation (fun _ => STATUS_SUCCESS) pShared).1.mpr
    (fun _ _ => rfl)

theorem detectionInference_workspace_layout_witness :
    nextWorkspacePtr (sortingWorkspaceOffset pShared) 64
      = detectionInferenceWorkspaceSize pShared 64 :=
  (detectionInference_workspace_layout pShared 64).2.2

theorem scoreShift_policy_witness : scoreShift pShared = 1 :=
  (scoreShift_policy pShared).1.mpr (by decide)

theorem share_location_box_permute_witness :
    (nmsCallOf pShared).bboxData = Buf.bboxDataRaw
    ∧ (gatherCallOf pShared).bboxData = Buf.bboxDataRaw :=
  ⟨((share_location_box_permute pShared).2 rfl).1,
   ((share_location_box_permute pShared).2 rfl).2.1⟩

theorem decode_clipBBox_false_witness : (decodeCallOf pShared).clipBBox = false :=
  decode_clipBBox_false pShared (decodeCallOf pShared) (by decide)

theorem keepCount_bounds_witness :
    (gatherTopDetectionsModel 1 (sortScoresPerImageModel entriesW)).1 ≤ 1
    ∧ (gatherTopDetectionsModel 1 (sortScoresPerImageModel entriesW)).1 ≤ 2 * 2 :=
  keepCount_bounds 2 2 1 entriesW rfl

theorem detectionInference_deterministic_witness :
    (exec semConst pShared memA).keepCount = (exec semConst pShared memB).keepCount
    ∧ (exec semConst pShared memA).topDetections
        = (exec semConst pShared memB).topDetections :=
  detectionInference_deterministic semConst pShared memA memB rfl rfl rfl

theorem locCount_formula_witness :
    locCount pShared = pShared.N * (pShared.numPredsPerClass * numLocClasses pShared * 4) :=
  (locCount_formula pShared (by decide)).2.1

theorem workspace_half_precision_sizes_witness :
    2 * scoresSize pShared = scoresSize {pShared with dtScore := kFLOAT}
    ∧ 2 * postNMSScoresSize pShared = postNMSScoresSize {pShared with dtScore := kFLOAT}
    ∧ indicesSize pShared = indicesSize {pShared with dtScore := kFLOAT}
    ∧ postNMSIndicesSize pShared = postNMSIndicesSize {pShared with dtScore := kFLOAT} :=
  workspace_half_precision_sizes pShared rfl
